import Mathlib

/-!
Verification of the M5Stack SHT30 sensor driver (`src/m5stack/sht30.py`).

The driver module imports three collaborator modules that are not part of
the visible source tree (`m5stack.sht30_codec`, `m5stack.conversion_utils`,
`m5stack.exceptions`); those are modelled here from the specification
(sections 4.1, 4.2 and 7 of `spec.md`).  The driver itself
(`SHT30._measure_raw`, `read`, `read_temperature`, `read_humidity`,
`SHT30Fake`) is embedded directly from the Python source, with the bus
transport represented by an explicit collaborator value and the I/O
behaviour of a read cycle recorded as an event trace.
-/

/-- One step of the CRC-8 bit loop: shift left, conditionally xor the
polynomial 0x31, keep the low 8 bits (MSB-first bit order). -/
def crcStep (c : Nat) : Nat :=
  if 128 ≤ c then ((c * 2) % 256) ^^^ 0x31 else (c * 2) % 256

/-- Absorb one data byte into the CRC state: xor the byte in, then run the
bit loop eight times. -/
def crc8Update (c b : Nat) : Nat :=
  crcStep^[8] ((c ^^^ b) % 256)

/-- Modelled from the spec: the sensor-family CRC-8 (polynomial 0x31,
initial value 0xFF, MSB-first, no final XOR) over a byte sequence, as used
by `m5stack.sht30_codec` (module absent from `src/`). -/
def crc8 (data : List Nat) : Nat :=
  data.foldl crc8Update 0xFF

/-- Modelled from the spec: the `ProtocolError` kinds raised by the codec
(`m5stack.exceptions` is absent from `src/`): wrong frame length, or a
checksum mismatch. -/
inductive ProtocolError
  | lengthError
  | checksumMismatch
  deriving DecidableEq

/-- Big-endian recombination of a 16-bit channel from its two bytes. -/
def be16 (hi lo : Nat) : Nat := hi * 256 + lo

/-- Modelled from the spec: `parse_measurement_frame` of
`m5stack.sht30_codec` (module absent from `src/`).  Requires exactly 6
bytes, splits them into channel A (bytes 0-1) with its checksum (byte 2)
and channel B (bytes 3-4) with its checksum (byte 5), verifies each
checksum with `crc8`, and on success returns the two big-endian 16-bit
values. -/
def parse_measurement_frame (frame : List Nat) :
    Except ProtocolError (Nat × Nat) :=
  match frame with
  | [aHi, aLo, aCrc, bHi, bLo, bCrc] =>
      if crc8 [aHi, aLo] ≠ aCrc then Except.error ProtocolError.checksumMismatch
      else if crc8 [bHi, bLo] ≠ bCrc then Except.error ProtocolError.checksumMismatch
      else Except.ok (be16 aHi aLo, be16 bHi bLo)
  | _ => Except.error ProtocolError.lengthError

/-- Modelled from the spec: the frame encoder used by the round-trip test
property — two big-endian channel bytes each followed by their `crc8`. -/
def encode_measurement_frame (a b : Nat) : List Nat :=
  [a / 256, a % 256, crc8 [a / 256, a % 256],
   b / 256, b % 256, crc8 [b / 256, b % 256]]

/-- Modelled from the spec: `raw_to_celsius` of `m5stack.conversion_utils`
(module absent from `src/`): `-45 + 175 * raw / 65535`, exact rational
arithmetic standing for the float computation. -/
def raw_to_celsius (raw : Nat) : ℚ :=
  -45 + 175 * raw / 65535

/-- Modelled from the spec: `raw_to_humidity` of `m5stack.conversion_utils`
(module absent from `src/`): `100 * raw / 65535`, no clamping. -/
def raw_to_humidity (raw : Nat) : ℚ :=
  100 * raw / 65535

/-- An underlying bus I/O failure (`OSError` in the source), identified by
an opaque error code. -/
structure OSError where
  code : Nat
  deriving DecidableEq

/-- Modelled from the spec: the driver-level error kind (`SHT30Error` in
`m5stack.exceptions`, absent from `src/`): either a transport failure
wrapping the original I/O cause, or a codec (protocol) failure carried
unchanged. -/
inductive SHT30Error
  | transport (cause : OSError)
  | protocol (e : ProtocolError)
  deriving DecidableEq

/-- Observable I/O events of one measurement cycle, in order: scoped bus
acquisition, block write, sleep, block read, scoped release, and handing a
frame to the codec. -/
inductive Event
  | acquire (busNumber : Nat)
  | write (addr reg : Nat) (data : List Nat)
  | sleep (seconds : ℚ)
  | read (addr reg len : Nat)
  | release
  | parseFrame (frame : List Nat)
  deriving DecidableEq

/-- Behaviour of the injected bus collaborator for one cycle: whether the
trigger write raises an `OSError`, and what the block read yields (a byte
list, or an `OSError`). -/
structure BusModel where
  writeResult : Option OSError
  readResult : Except OSError (List Nat)

/-- Driver configuration, from the `SHT30` dataclass fields (the
`bus_factory` becomes the explicit `BusModel` argument of each cycle). -/
structure SHT30 where
  bus_number : Nat := 1
  address : Nat := 0x44
  measurement_delay_seconds : ℚ := 1/50

/-- `SHT30._measure_raw`: acquire the scoped bus handle, write the
single-shot command `(0x24, 0x00)`, sleep the configured delay, read 6
bytes from register 0x00, release the handle (the `with` block ends on
every path, including `OSError`), then parse the frame.  An `OSError` is
re-raised as a transport-kind `SHT30Error` wrapping the cause.  Returns
the event trace together with the outcome. -/
def SHT30.measure_raw (cfg : SHT30) (bus : BusModel) :
    List Event × Except SHT30Error (Nat × Nat) :=
  match bus.writeResult with
  | some e =>
      ([Event.acquire cfg.bus_number,
        Event.write cfg.address 0x24 [0x00],
        Event.release],
       Except.error (SHT30Error.transport e))
  | none =>
      match bus.readResult with
      | Except.error e =>
          ([Event.acquire cfg.bus_number,
            Event.write cfg.address 0x24 [0x00],
            Event.sleep cfg.measurement_delay_seconds,
            Event.read cfg.address 0x00 6,
            Event.release],
           Except.error (SHT30Error.transport e))
      | Except.ok frame =>
          ([Event.acquire cfg.bus_number,
            Event.write cfg.address 0x24 [0x00],
            Event.sleep cfg.measurement_delay_seconds,
            Event.read cfg.address 0x00 6,
            Event.release,
            Event.parseFrame frame],
           match parse_measurement_frame frame with
           | Except.ok p => Except.ok p
           | Except.error e => Except.error (SHT30Error.protocol e))

/-- `SHT30.read`: run the cycle and convert both raw channels. -/
def SHT30.read (cfg : SHT30) (bus : BusModel) :
    List Event × Except SHT30Error (ℚ × ℚ) :=
  match SHT30.measure_raw cfg bus with
  | (tr, Except.ok p) =>
      (tr, Except.ok (raw_to_celsius p.1, raw_to_humidity p.2))
  | (tr, Except.error e) => (tr, Except.error e)

/-- `SHT30.read_temperature`: run the identical cycle, convert and return
only the first raw channel. -/
def SHT30.read_temperature (cfg : SHT30) (bus : BusModel) :
    List Event × Except SHT30Error ℚ :=
  match SHT30.measure_raw cfg bus with
  | (tr, Except.ok p) => (tr, Except.ok (raw_to_celsius p.1))
  | (tr, Except.error e) => (tr, Except.error e)

/-- `SHT30.read_humidity`: run the identical cycle, convert and return
only the second raw channel. -/
def SHT30.read_humidity (cfg : SHT30) (bus : BusModel) :
    List Event × Except SHT30Error ℚ :=
  match SHT30.measure_raw cfg bus with
  | (tr, Except.ok p) => (tr, Except.ok (raw_to_humidity p.2))
  | (tr, Except.error e) => (tr, Except.error e)

/-- Number of `release` events in a trace. -/
def countRelease : List Event → Nat
  | [] => 0
  | Event.release :: rest => countRelease rest + 1
  | _ :: rest => countRelease rest

/-- `true` when no codec invocation precedes the first `release` of the
trace (vacuously `true` when the codec is never invoked). -/
def releaseBeforeParse : List Event → Bool
  | [] => true
  | Event.parseFrame _ :: _ => false
  | Event.release :: _ => true
  | _ :: rest => releaseBeforeParse rest

/-- `SHT30Fake` dataclass fields: distribution parameters fixed at
construction. -/
structure SHT30Fake where
  temperature : ℚ := 25
  humidity : ℚ := 50
  temperature_sigma : ℚ := 1/5
  humidity_sigma : ℚ := 1

/-- The Gaussian draw `random.gauss(mu, sigma)`, modelled as `mu + sigma *
z` for an injected standard-normal sample `z` (an arbitrary, unbounded
rational). -/
def gauss (mu sigma z : ℚ) : ℚ := mu + sigma * z

/-- `SHT30Fake._rand_temperature`: one Gaussian draw clamped into
`[-40, 125]`. -/
def SHT30Fake.rand_temperature (f : SHT30Fake) (z : ℚ) : ℚ :=
  max (-40) (min 125 (gauss f.temperature f.temperature_sigma z))

/-- `SHT30Fake._rand_humidity`: one Gaussian draw clamped into
`[0, 100]`. -/
def SHT30Fake.rand_humidity (f : SHT30Fake) (z : ℚ) : ℚ :=
  max 0 (min 100 (gauss f.humidity f.humidity_sigma z))

/-- `SHT30Fake.read`: two fresh, separate draws, one per channel. -/
def SHT30Fake.read (f : SHT30Fake) (zt zh : ℚ) : ℚ × ℚ :=
  (f.rand_temperature zt, f.rand_humidity zh)

/-- `SHT30Fake.read_temperature`: a single temperature draw. -/
def SHT30Fake.read_temperature (f : SHT30Fake) (zt : ℚ) : ℚ :=
  f.rand_temperature zt

/-- `SHT30Fake.read_humidity`: a single humidity draw. -/
def SHT30Fake.read_humidity (f : SHT30Fake) (zh : ℚ) : ℚ :=
  f.rand_humidity zh

/-- A bus whose read yields a CRC-valid frame encoding channels 0x61A8 and
0x7CB4 (25000 and 31924). -/
def busDemo : BusModel :=
  BusModel.mk none (Except.ok [0x61, 0xA8, 0x65, 0x7C, 0xB4, 0x75])

/-- A bus whose trigger write raises an I/O failure. -/
def busFail : BusModel :=
  BusModel.mk (some (OSError.mk 5)) (Except.ok [])

/-- A default-configured driver instance. -/
def cfgDemo : SHT30 := SHT30.mk 1 0x44 (1/50)

/-- Claim C1: a 6-byte frame parses to its two big-endian channels exactly
when both transmitted checksum bytes equal the CRC-8 of their preceding
2-byte channel; whenever either checksum byte disagrees, parsing fails
with the checksum-mismatch `ProtocolError` and returns no value. -/
theorem parse_frame_checksum_characterisation
    (aHi aLo aCrc bHi bLo bCrc : Nat) :
    parse_measurement_frame [aHi, aLo, aCrc, bHi, bLo, bCrc] =
      if crc8 [aHi, aLo] = aCrc ∧ crc8 [bHi, bLo] = bCrc then
        Except.ok (aHi * 256 + aLo, bHi * 256 + bLo)
      else Except.error ProtocolError.checksumMismatch := by
  by_cases h0 : crc8 [aHi, aLo] = aCrc <;>
    by_cases h1 : crc8 [bHi, bLo] = bCrc <;>
      simp [parse_measurement_frame, be16, h0, h1]

/-- Claim C5: any byte sequence whose length is not 6 is rejected with the
length-error `ProtocolError`, independently of its contents (in
particular, independently of any checksum computation). -/
theorem parse_frame_wrong_length : ∀ (frame : List Nat), frame.length ≠ 6 →
    parse_measurement_frame frame = Except.error ProtocolError.lengthError
  | [], _ => rfl
  | [_], _ => rfl
  | [_, _], _ => rfl
  | [_, _, _], _ => rfl
  | [_, _, _, _], _ => rfl
  | [_, _, _, _, _], _ => rfl
  | [_, _, _, _, _, _], h => absurd rfl h
  | _ :: _ :: _ :: _ :: _ :: _ :: _ :: _, _ => rfl

/-- Witness for C5 at the concrete 3-byte input `[1, 2, 3]`. -/
theorem parse_frame_wrong_length_witness :
    parse_measurement_frame [1, 2, 3] = Except.error ProtocolError.lengthError :=
  parse_frame_wrong_length [1, 2, 3] (by decide)

/-- Claim C8: encoding any pair of 16-bit channel values into a 6-byte
frame with correctly computed CRC-8 checksums and parsing it back returns
exactly the original pair. -/
theorem encode_parse_roundtrip (a b : Nat) (ha : a < 65536) (hb : b < 65536) :
    parse_measurement_frame (encode_measurement_frame a b) = Except.ok (a, b) := by
  simp [encode_measurement_frame, parse_measurement_frame, be16]
  omega

/-- Witness for C8 at the concrete channel pair (25000, 31924). -/
theorem encode_parse_roundtrip_witness :
    parse_measurement_frame (encode_measurement_frame 25000 31924) =
      Except.ok (25000, 31924) :=
  encode_parse_roundtrip 25000 31924 (by decide) (by decide)

/-- Claim C3: `raw_to_celsius` computes `-45 + 175 * raw / 65535`, is
total, maps 0 to -45 and 65535 to 130, and stays within `[-45, 130]` on
the 16-bit domain. -/
theorem raw_to_celsius_formula :
    (∀ raw : Nat, raw_to_celsius raw = -45 + 175 * raw / 65535) ∧
    raw_to_celsius 0 = -45 ∧
    raw_to_celsius 65535 = 130 ∧
    (∀ raw : Nat, raw ≤ 65535 →
      -45 ≤ raw_to_celsius raw ∧ raw_to_celsius raw ≤ 130) := by
  refine ⟨fun raw => rfl, by norm_num [raw_to_celsius],
    by norm_num [raw_to_celsius], ?_⟩
  intro raw h
  have hr : (raw : ℚ) ≤ 65535 := by exact_mod_cast h
  have hr0 : (0 : ℚ) ≤ (raw : ℚ) := Nat.cast_nonneg raw
  unfold raw_to_celsius
  constructor
  · have h1 : (0 : ℚ) ≤ 175 * raw / 65535 := by positivity
    linarith
  · have h2 : (175 : ℚ) * raw / 65535 ≤ 175 := by
      rw [div_le_iff₀ (by norm_num : (0 : ℚ) < 65535)]
      nlinarith
    linarith

/-- Witness for C3 at the concrete raw value 1000. -/
theorem raw_to_celsius_formula_witness :
    -45 ≤ raw_to_celsius 1000 ∧ raw_to_celsius 1000 ≤ 130 :=
  raw_to_celsius_formula.2.2.2 1000 (by norm_num)

/-- Claim C4: `raw_to_humidity` computes `100 * raw / 65535`, is total,
maps 0 to 0 and 65535 to 100, stays within `[0, 100]` on the 16-bit
domain, and performs no clamping (an out-of-domain raw value yields a
result above 100 rather than 100). -/
theorem raw_to_humidity_formula :
    (∀ raw : Nat, raw_to_humidity raw = 100 * raw / 65535) ∧
    raw_to_humidity 0 = 0 ∧
    raw_to_humidity 65535 = 100 ∧
    (∀ raw : Nat, raw ≤ 65535 →
      0 ≤ raw_to_humidity raw ∧ raw_to_humidity raw ≤ 100) ∧
    100 < raw_to_humidity 70000 := by
  refine ⟨fun raw => rfl, by norm_num [raw_to_humidity],
    by norm_num [raw_to_humidity], ?_, by norm_num [raw_to_humidity]⟩
  intro raw h
  have hr : (raw : ℚ) ≤ 65535 := by exact_mod_cast h
  have hr0 : (0 : ℚ) ≤ (raw : ℚ) := Nat.cast_nonneg raw
  unfold raw_to_humidity
  constructor
  · positivity
  · rw [div_le_iff₀ (by norm_num : (0 : ℚ) < 65535)]
    nlinarith

/-- Witness for C4 at the concrete raw value 1000. -/
theorem raw_to_humidity_formula_witness :
    0 ≤ raw_to_humidity 1000 ∧ raw_to_humidity 1000 ≤ 100 :=
  raw_to_humidity_formula.2.2.2.1 1000 (by norm_num)

/-- Claim C2: whenever a read cycle succeeds, its I/O trace is exactly one
scoped acquisition, one trigger write of the single-shot command to the
configured address, one sleep of the configured settle delay, one 6-byte
block read from register 0x00, the scoped release, and one codec
invocation, in that order; the returned value is the pair of conversion
functions applied to the decoded raw channels, and `read_temperature` and
`read_humidity` run the identical cycle. -/
theorem read_cycle_trace (cfg : SHT30) (bus : BusModel) (p : ℚ × ℚ)
    (h : (SHT30.read cfg bus).2 = Except.ok p) :
    ∃ frame t rh,
      bus.writeResult = none ∧
      bus.readResult = Except.ok frame ∧
      parse_measurement_frame frame = Except.ok (t, rh) ∧
      (SHT30.read cfg bus).1 =
        [Event.acquire cfg.bus_number,
         Event.write cfg.address 0x24 [0x00],
         Event.sleep cfg.measurement_delay_seconds,
         Event.read cfg.address 0x00 6,
         Event.release,
         Event.parseFrame frame] ∧
      p = (raw_to_celsius t, raw_to_humidity rh) ∧
      (SHT30.read_temperature cfg bus).1 = (SHT30.read cfg bus).1 ∧
      (SHT30.read_humidity cfg bus).1 = (SHT30.read cfg bus).1 ∧
      (SHT30.read_temperature cfg bus).2 = Except.ok (raw_to_celsius t) ∧
      (SHT30.read_humidity cfg bus).2 = Except.ok (raw_to_humidity rh) := by
  obtain ⟨wr, rr⟩ := bus
  cases wr with
  | some e => simp [SHT30.read, SHT30.measure_raw] at h
  | none =>
    cases rr with
    | error e => simp [SHT30.read, SHT30.measure_raw] at h
    | ok frame =>
      cases hpf : parse_measurement_frame frame with
      | error e => simp [SHT30.read, SHT30.measure_raw, hpf] at h
      | ok q =>
        obtain ⟨t, rh⟩ := q
        refine ⟨frame, t, rh, rfl, rfl, hpf, ?_, ?_, ?_, ?_, ?_, ?_⟩ <;>
          simp_all [SHT30.read, SHT30.read_temperature, SHT30.read_humidity,
            SHT30.measure_raw, hpf]

/-- Witness for C2: the successful cycle on `busDemo`. -/
theorem read_cycle_trace_witness :
    ∃ frame t rh,
      busDemo.writeResult = none ∧
      busDemo.readResult = Except.ok frame ∧
      parse_measurement_frame frame = Except.ok (t, rh) ∧
      (SHT30.read cfgDemo busDemo).1 =
        [Event.acquire cfgDemo.bus_number,
         Event.write cfgDemo.address 0x24 [0x00],
         Event.sleep cfgDemo.measurement_delay_seconds,
         Event.read cfgDemo.address 0x00 6,
         Event.release,
         Event.parseFrame frame] ∧
      (raw_to_celsius 25000, raw_to_humidity 31924) =
        (raw_to_celsius t, raw_to_humidity rh) ∧
      (SHT30.read_temperature cfgDemo busDemo).1 = (SHT30.read cfgDemo busDemo).1 ∧
      (SHT30.read_humidity cfgDemo busDemo).1 = (SHT30.read cfgDemo busDemo).1 ∧
      (SHT30.read_temperature cfgDemo busDemo).2 = Except.ok (raw_to_celsius t) ∧
      (SHT30.read_humidity cfgDemo busDemo).2 = Except.ok (raw_to_humidity rh) :=
  read_cycle_trace cfgDemo busDemo (raw_to_celsius 25000, raw_to_humidity 31924) rfl

/-- Claim C6: when the trigger write raises an I/O failure, the cycle
fails with a transport-kind error wrapping that exact cause, performs the
write only once (no retry), and never invokes the codec. -/
theorem trigger_failure_transport_error (cfg : SHT30) (bus : BusModel)
    (e : OSError) (h : bus.writeResult = some e) :
    (SHT30.read cfg bus).2 = Except.error (SHT30Error.transport e) ∧
    (SHT30.read cfg bus).1 =
      [Event.acquire cfg.bus_number,
       Event.write cfg.address 0x24 [0x00],
       Event.release] ∧
    (∀ frame, Event.parseFrame frame ∉ (SHT30.read cfg bus).1) ∧
    (SHT30.read_temperature cfg bus).2 = Except.error (SHT30Error.transport e) ∧
    (SHT30.read_humidity cfg bus).2 = Except.error (SHT30Error.transport e) := by
  refine ⟨?_, ?_, ?_, ?_, ?_⟩ <;>
    simp [SHT30.read, SHT30.read_temperature, SHT30.read_humidity,
      SHT30.measure_raw, h]

/-- Witness for C6: the failing trigger write on `busFail`. -/
theorem trigger_failure_transport_error_witness :
    (SHT30.read cfgDemo busFail).2 =
      Except.error (SHT30Error.transport (OSError.mk 5)) ∧
    (SHT30.read cfgDemo busFail).1 =
      [Event.acquire cfgDemo.bus_number,
       Event.write cfgDemo.address 0x24 [0x00],
       Event.release] ∧
    (∀ frame, Event.parseFrame frame ∉ (SHT30.read cfgDemo busFail).1) ∧
    (SHT30.read_temperature cfgDemo busFail).2 =
      Except.error (SHT30Error.transport (OSError.mk 5)) ∧
    (SHT30.read_humidity cfgDemo busFail).2 =
      Except.error (SHT30Error.transport (OSError.mk 5)) :=
  trigger_failure_transport_error cfgDemo busFail (OSError.mk 5) rfl

/-- Claim C7: on every path of the cycle — success, transport failure and
protocol failure — the scoped handle is released exactly once, the release
precedes any codec invocation, all three accessors share the same cycle
trace, and a codec error is propagated unchanged (the protocol-kind error
carries exactly the codec result). -/
theorem scoped_handle_release (cfg : SHT30) (bus : BusModel) :
    countRelease (SHT30.measure_raw cfg bus).1 = 1 ∧
    releaseBeforeParse (SHT30.measure_raw cfg bus).1 = true ∧
    (SHT30.read cfg bus).1 = (SHT30.measure_raw cfg bus).1 ∧
    (SHT30.read_temperature cfg bus).1 = (SHT30.measure_raw cfg bus).1 ∧
    (SHT30.read_humidity cfg bus).1 = (SHT30.measure_raw cfg bus).1 ∧
    (∀ e, (SHT30.measure_raw cfg bus).2 = Except.error (SHT30Error.protocol e) →
      ∃ frame, bus.readResult = Except.ok frame ∧
        parse_measurement_frame frame = Except.error e) := by
  obtain ⟨wr, rr⟩ := bus
  cases wr with
  | some e =>
    refine ⟨rfl, rfl, ?_, ?_, ?_, ?_⟩ <;>
      simp [SHT30.read, SHT30.read_temperature, SHT30.read_humidity,
        SHT30.measure_raw, countRelease, releaseBeforeParse]
  | none =>
    cases rr with
    | error e =>
      refine ⟨rfl, rfl, ?_, ?_, ?_, ?_⟩ <;>
        simp [SHT30.read, SHT30.read_temperature, SHT30.read_humidity,
          SHT30.measure_raw, countRelease, releaseBeforeParse]
    | ok frame =>
      cases hpf : parse_measurement_frame frame with
      | error pe =>
        refine ⟨rfl, rfl, ?_, ?_, ?_, ?_⟩ <;>
          simp_all [SHT30.read, SHT30.read_temperature, SHT30.read_humidity,
            SHT30.measure_raw, countRelease, releaseBeforeParse, hpf]
      | ok q =>
        refine ⟨rfl, rfl, ?_, ?_, ?_, ?_⟩ <;>
          simp_all [SHT30.read, SHT30.read_temperature, SHT30.read_humidity,
            SHT30.measure_raw, countRelease, releaseBeforeParse, hpf]

/-- Witness for C7: exactly one release in the successful demo cycle. -/
theorem scoped_handle_release_witness :
    countRelease (SHT30.measure_raw cfgDemo busDemo).1 = 1 :=
  (scoped_handle_release cfgDemo busDemo).1

/-- Claim C10: for a successfully parsed frame, the channel decoded from
bytes 0-1 is converted with `raw_to_celsius` (temperature) and the channel
from bytes 3-4 with `raw_to_humidity` (humidity): `read` returns the pair,
`read_temperature` only the first, `read_humidity` only the second. -/
theorem channel_assignment (cfg : SHT30) (bus : BusModel)
    (aHi aLo aCrc bHi bLo bCrc : Nat)
    (hw : bus.writeResult = none)
    (hr : bus.readResult = Except.ok [aHi, aLo, aCrc, bHi, bLo, bCrc])
    (h0 : crc8 [aHi, aLo] = aCrc) (h1 : crc8 [bHi, bLo] = bCrc) :
    (SHT30.read cfg bus).2 =
      Except.ok (raw_to_celsius (aHi * 256 + aLo),
                 raw_to_humidity (bHi * 256 + bLo)) ∧
    (SHT30.read_temperature cfg bus).2 =
      Except.ok (raw_to_celsius (aHi * 256 + aLo)) ∧
    (SHT30.read_humidity cfg bus).2 =
      Except.ok (raw_to_humidity (bHi * 256 + bLo)) := by
  have hpf : parse_measurement_frame [aHi, aLo, aCrc, bHi, bLo, bCrc] =
      Except.ok (aHi * 256 + aLo, bHi * 256 + bLo) := by
    simp [parse_measurement_frame, be16, h0, h1]
  refine ⟨?_, ?_, ?_⟩ <;>
    simp [SHT30.read, SHT30.read_temperature, SHT30.read_humidity,
      SHT30.measure_raw, hw, hr, hpf]

/-- Witness for C10 on the CRC-valid demo frame. -/
theorem channel_assignment_witness :
    (SHT30.read cfgDemo busDemo).2 =
      Except.ok (raw_to_celsius (0x61 * 256 + 0xA8),
                 raw_to_humidity (0x7C * 256 + 0xB4)) ∧
    (SHT30.read_temperature cfgDemo busDemo).2 =
      Except.ok (raw_to_celsius (0x61 * 256 + 0xA8)) ∧
    (SHT30.read_humidity cfgDemo busDemo).2 =
      Except.ok (raw_to_humidity (0x7C * 256 + 0xB4)) :=
  channel_assignment cfgDemo busDemo 0x61 0xA8 0x65 0x7C 0xB4 0x75
    rfl rfl (by decide) (by decide)

/-- Claim C9: every fake-driver accessor is total, each returned
temperature lies in `[-40, 125]` and each humidity in `[0, 100]` whatever
the unbounded Gaussian draws produce, the single-channel accessors agree
with the corresponding component of `read`, and each channel depends only
on its own draw (the draws are independent per call). -/
theorem fake_driver_total_clamped (f : SHT30Fake) (zt zh : ℚ) :
    -40 ≤ (SHT30Fake.read f zt zh).1 ∧ (SHT30Fake.read f zt zh).1 ≤ 125 ∧
    0 ≤ (SHT30Fake.read f zt zh).2 ∧ (SHT30Fake.read f zt zh).2 ≤ 100 ∧
    SHT30Fake.read_temperature f zt = (SHT30Fake.read f zt zh).1 ∧
    SHT30Fake.read_humidity f zh = (SHT30Fake.read f zt zh).2 ∧
    (∀ z, (SHT30Fake.read f zt z).1 = (SHT30Fake.read f zt zh).1) ∧
    (∀ z, (SHT30Fake.read f z zh).2 = (SHT30Fake.read f zt zh).2) := by
  refine ⟨?_, ?_, ?_, ?_, rfl, rfl, fun z => rfl, fun z => rfl⟩
  · show -40 ≤ max (-40) (min 125 (gauss f.temperature f.temperature_sigma zt))
    exact le_max_left _ _
  · show max (-40) (min 125 (gauss f.temperature f.temperature_sigma zt)) ≤ 125
    exact max_le (by norm_num) (min_le_left _ _)
  · show 0 ≤ max 0 (min 100 (gauss f.humidity f.humidity_sigma zh))
    exact le_max_left _ _
  · show max 0 (min 100 (gauss f.humidity f.humidity_sigma zh)) ≤ 100
    exact max_le (by norm_num) (min_le_left _ _)
